import Mathlib

/-!
Verification of the Smart AI Router (`ai_router.py`): a shallow embedding of
the provider registry, health probe, weighted provider selection, model-name
mapping, request forwarding (non-streaming and both streaming transports),
auth/quota gating, and the request-handler statistics trace, together with
theorems settling the specification claims.

Python floats are embedded as `ℚ` (all concrete inputs used in proofs are
dyadic rationals, on which Python's binary floating point is exact);
Python ints as `Int`; fallible lookups as `Option`; raised exceptions as
`Except`/`Option` results.  Code that consults the clock or the network
takes the observed value (timestamp, upstream outcome) as an explicit
parameter.
-/

set_option autoImplicit false

namespace AIRouter

/-- Enum `ProviderStatus` of `ai_router.py`. -/
inductive ProviderStatus where
  | healthy
  | unhealthy
  | unknown
deriving DecidableEq, Repr

/-- Dataclass `AIProvider`: one upstream backend with live state. -/
structure AIProvider where
  name : String
  base_url : String
  api_key : String
  models : List String
  weight : Int := 1
  status : ProviderStatus := .unknown
  last_check : ℚ := 0
  response_time : ℚ := 0
  error_count : Int := 0
deriving DecidableEq, Repr

/-- Dataclass `UserInfo`: caller identity and quota state. -/
structure UserInfo where
  user_id : String
  api_key : String
  daily_limit : Int := 1000
  requests_today : Int := 0
  total_requests : Int := 0
  created_at : String
  last_request : String
  is_active : Bool := true
deriving DecidableEq, Repr

/-- Pydantic model `ChatRequest` (fields used by the router). -/
structure ChatRequest where
  model : String
  messages : List (List (String × String)) := []
  max_tokens : Option Int := some 150
  temperature : Option ℚ := some (7/10)
  stream : Bool := true
  x_use_asgi_streaming : Bool := false
deriving DecidableEq, Repr

/-! ### Auth and quota gate -/

/-- Method `SmartAIRouter.check_quota`: lazily resets `requests_today` when the date
portion (first 10 characters) of `last_request` differs from `today`
(`datetime.now().date().isoformat()`), then admits iff
`requests_today < daily_limit`.  Returns the (possibly reset) user record and
the admission verdict, mirroring the in-place mutation of `user_info`. -/
def check_quota (u : UserInfo) (today : String) : UserInfo × Bool :=
  let u1 := if u.last_request.take 10 ≠ today then { u with requests_today := 0 } else u
  (u1, u1.requests_today < u1.daily_limit)

/-- Method `SmartAIRouter.update_user_stats`: per-admitted-request accounting. -/
def update_user_stats (u : UserInfo) (now : String) : UserInfo :=
  { u with requests_today := u.requests_today + 1,
           total_requests := u.total_requests + 1,
           last_request := now }

/-- Outcome of the `authenticate` dependency. -/
inductive AuthResult where
  | ok
  | invalidKey
  | inactive
  | quotaExceeded
deriving DecidableEq, Repr

/-- Dependency `authenticate`: key lookup (its result passed in as
`lookup`), active-flag check, then quota check; HTTP 401/403/429 become the
distinct rejection kinds.  Returns the possibly-reset user record alongside
the verdict. -/
def authenticate (lookup : Option UserInfo) (today : String) : Option UserInfo × AuthResult :=
  match lookup with
  | none => (none, .invalidKey)
  | some u =>
      if u.is_active = false then (some u, .inactive)
      else
        let r := check_quota u today
        if r.2 then (some r.1, .ok) else (some r.1, .quotaExceeded)

/-! ### Health probe -/

/-- Observed outcome of one health-probe HTTP call: either a response with
some status code, or a raised exception (connection error, timeout, or any
other) before a response was obtained. -/
inductive ProbeOutcome where
  | response (statusCode : Int)
  | exc (msg : String)
deriving DecidableEq, Repr

/-- Method `SmartAIRouter.health_check_provider`: on any response, `response_time`
and `last_check` are overwritten first; status 200 then sets
`status := healthy`, `error_count := 0`; a non-200 or an exception sets
`status := unhealthy` and increments `error_count`, the exception path still
recording `last_check` (but not `response_time`).  `elapsed` is the measured
probe time, `now` the wall clock at the check. -/
def health_check_provider (p : AIProvider) (o : ProbeOutcome) (elapsed now : ℚ) :
    AIProvider × Bool :=
  match o with
  | .response code =>
      let p1 := { p with response_time := elapsed, last_check := now }
      if code = 200 then
        ({ p1 with status := .healthy, error_count := 0 }, true)
      else
        ({ p1 with status := .unhealthy, error_count := p1.error_count + 1 }, false)
  | .exc _ =>
      ({ p with status := .unhealthy, error_count := p.error_count + 1, last_check := now },
       false)

/-! ### Provider selection -/

/-- Step 1 filter of `select_provider`: healthy status and fewer than five
consecutive errors. -/
def healthyFilter (providers : List AIProvider) : List AIProvider :=
  providers.filter (fun p => p.status = .healthy ∧ p.error_count < 5)

/-- Step 1 of `select_provider` with its graceful-degradation fallback to the
full provider list. -/
def candidatesStep1 (providers : List AIProvider) : List AIProvider :=
  let h := healthyFilter providers
  if h.isEmpty then providers else h

/-- Step 2 of `select_provider`: soft model-affinity filter. -/
def modelCompatible (request : ChatRequest) (hs : List AIProvider) : List AIProvider :=
  hs.filter (fun p => request.model ∈ p.models)

/-- Candidate set reaching step 3 of `select_provider`. -/
def candidates (providers : List AIProvider) (request : ChatRequest) : List AIProvider :=
  let h := candidatesStep1 providers
  let m := modelCompatible request h
  if m.isEmpty then h else m

/-- Python `int()` applied to a rational: truncation toward zero. -/
def pyInt (q : ℚ) : Int := if 0 ≤ q then ⌊q⌋ else ⌈q⌉

/-- Step 3 of `select_provider`: effective weight.  The latency factor
`max(0.1, 2.0 - response_time)` is applied only under the guard
`provider.response_time > 0`; the error factor
`max(0.1, 1.0 - error_count * 0.1)` is always applied. -/
def effectiveWeight (p : AIProvider) : ℚ :=
  let w : ℚ := (p.weight : ℚ)
  let w1 := if 0 < p.response_time then w * max (1/10) (2 - p.response_time) else w
  w1 * max (1/10) (1 - (p.error_count : ℚ) * (1/10))

/-- Number of pool copies per candidate: `max(1, int(weight))`. -/
def poolCopies (p : AIProvider) : Nat :=
  (max 1 (pyInt (effectiveWeight p))).toNat

/-- Step 4 of `select_provider`: the selection pool,
`weighted_providers.extend([provider] * max(1, int(weight)))` per candidate. -/
def weightedPool (cands : List AIProvider) : List AIProvider :=
  cands.flatMap (fun p => List.replicate (poolCopies p) p)

/-- Method `SmartAIRouter.select_provider`.  Here `random.choice` over the pool is
modelled by an arbitrary draw `choice`, reduced modulo the pool size; every
pool index is reachable, matching the uniform pick. -/
def select_provider (providers : List AIProvider) (request : ChatRequest) (choice : Nat) :
    Option AIProvider :=
  let cands := candidates providers request
  if cands.isEmpty then none
  else
    let pool := weightedPool cands
    pool.get? (choice % pool.length)

/-! ### Model name mapping -/

/-- The literal `model_mapping` table shared by `SmartAIRouter.map_model_name`
and `LowLevelASGIStreamer.map_model_name`. -/
def model_mapping : List (String × List (String × String)) :=
  [("gpt-3.5-turbo",
     [("deepseek", "deepseek-chat"), ("lingyiwanwu", "yi-34b-chat"), ("ollama", "llama3.2")]),
   ("gpt-4",
     [("deepseek", "deepseek-chat"), ("lingyiwanwu", "yi-34b-chat"), ("ollama", "llama3.2")]),
   ("code-assistant",
     [("deepseek", "deepseek-coder"), ("lingyiwanwu", "yi-34b-chat"), ("ollama", "codegemma")])]

/-- Method `SmartAIRouter.map_model_name`.  Here `none` models a raised `IndexError` from
`provider.models[0]`; note Python evaluates the `.get` default argument
`provider.models[0]` eagerly, so an alias hit still needs a nonempty model
list. -/
def map_model_name (requested_model : String) (p : AIProvider) : Option String :=
  match model_mapping.lookup requested_model with
  | some tbl =>
      match p.models.head? with
      | none => none
      | some d => some ((tbl.lookup p.name).getD d)
  | none =>
      if requested_model ∈ p.models then some requested_model
      else p.models.head?

/-- Method `LowLevelASGIStreamer.map_model_name`: a verbatim duplicate of
`SmartAIRouter.map_model_name` in the source. -/
def map_model_name_asgi (requested_model : String) (p : AIProvider) : Option String :=
  match model_mapping.lookup requested_model with
  | some tbl =>
      match p.models.head? with
      | none => none
      | some d => some ((tbl.lookup p.name).getD d)
  | none =>
      if requested_model ∈ p.models then some requested_model
      else p.models.head?

/-! ### Non-streaming forwarding -/

/-- JSON values as decoded by `response.json()` (the fragment the router
manipulates: an object is an insertion-ordered key/value list, as for a
Python dict). -/
inductive JVal where
  | str (s : String)
  | num (q : ℚ)
  | bool (b : Bool)
  | obj (fields : List (String × JVal))

/-- A decoded JSON object body. -/
abbrev JBody := List (String × JVal)

/-- Python dict read `d.get(k)`. -/
def dictGet (d : JBody) (k : String) : Option JVal :=
  (d.find? (fun kv => kv.1 = k)).map (fun kv => kv.2)

/-- Python dict assignment `d[k] = v`: updates the existing key in place, or
appends a new key at the end (insertion order). -/
def dictSet (d : JBody) (k : String) (v : JVal) : JBody :=
  if d.any (fun kv => kv.1 = k) then
    d.map (fun kv => if kv.1 = k then (k, v) else kv)
  else
    d ++ [(k, v)]

/-- The `_router_info` block attached by the non-streaming success path. -/
def routerInfoBlock (providerName : String) (responseTime : ℚ) (timestamp : String) : JVal :=
  .obj [("provider", .str providerName),
        ("response_time", .num responseTime),
        ("timestamp", .str timestamp),
        ("streaming", .bool false)]

/-- A raised `fastapi.HTTPException`. -/
structure HTTPError where
  status_code : Int
  detail : String
deriving DecidableEq

/-- Starlette `HTTPException.__str__`: `f"{status_code}: {detail}"`, used when
the outer `except Exception` handler interpolates the caught exception. -/
def httpExcStr (e : HTTPError) : String :=
  toString e.status_code ++ ": " ++ e.detail

/-- Observed outcome of the non-streaming upstream `client.post` call. -/
inductive UpstreamResult where
  | ok (body : JBody)
  | httpError (code : Int) (text : String)
  | connectError (msg : String)
  | timeoutError (msg : String)

/-- Non-streaming branch of `SmartAIRouter.forward_request`.  `rt` is the
measured `time.time() - start_time`, `ts` the `datetime.now().isoformat()`
timestamp.  The nested `try` structure is mirrored exactly: the inner
handlers raise `HTTPException`s that are then caught by the outer
`except Exception` (HTTPException is an Exception subclass), which increments
`provider.error_count` a second time and re-raises
`HTTPException(502, "Provider error: " + str(e))`.  On a non-200 response the
smoothing `provider.response_time = (old + rt) / 2` still runs, since it
precedes the status check. -/
def forward_non_streaming (p : AIProvider) (u : UpstreamResult) (rt : ℚ) (ts : String) :
    AIProvider × Except HTTPError JBody :=
  match u with
  | .ok body =>
      let p1 := { p with response_time := (p.response_time + rt) / 2 }
      let result := dictSet body "_router_info" (routerInfoBlock p.name rt ts)
      let p2 := { p1 with error_count := max 0 (p1.error_count - 1) }
      (p2, .ok result)
  | .httpError code text =>
      let p1 := { p with response_time := (p.response_time + rt) / 2 }
      let p2 := { p1 with error_count := p1.error_count + 1 }
      let inner : HTTPError := ⟨code, "Provider error: " ++ text⟩
      let p3 := { p2 with error_count := p2.error_count + 1 }
      (p3, .error ⟨502, "Provider error: " ++ httpExcStr inner⟩)
  | .connectError msg =>
      let p1 := { p with error_count := p.error_count + 1 }
      let inner : HTTPError := ⟨502, "Connection error: " ++ msg⟩
      let p2 := { p1 with error_count := p1.error_count + 1 }
      (p2, .error ⟨502, "Provider error: " ++ httpExcStr inner⟩)
  | .timeoutError msg =>
      let p1 := { p with error_count := p.error_count + 1 }
      let inner : HTTPError := ⟨504, "Provider timeout: " ++ msg⟩
      let p2 := { p1 with error_count := p1.error_count + 1 }
      (p2, .error ⟨502, "Provider error: " ++ httpExcStr inner⟩)

/-! ### Streaming transports -/

/-- Structured error envelope emitted as a terminal `data:` event. -/
structure ErrorEnvelope where
  type : String
  message : String
  provider : String
  code : Option Int := none
deriving DecidableEq, Repr

/-- How a 200-status chunked upstream read ends. -/
inductive StreamFailureKind where
  | connectErr
  | timeoutErr
  | otherErr
deriving DecidableEq, Repr

/-- Ending of the chunked read: clean end of stream, or a raised exception
mid-stream. -/
inductive StreamEnding where
  | clean
  | failed (k : StreamFailureKind) (msg : String)
deriving DecidableEq, Repr

/-- Observed behaviour of the upstream during a streaming call: a non-200
response (with its fully-read error body), a connection failure before any
response, or a 200 response delivering `chunks` and then `ending`. -/
inductive StreamUpstream where
  | httpError (code : Int) (bodyText : String)
  | connectFail (msg : String)
  | stream (chunks : List String) (ending : StreamEnding)
deriving DecidableEq, Repr

/-- One item yielded by the buffered-generator transport. -/
inductive StreamEvent where
  | content (chunk : String)
  | error (e : ErrorEnvelope)
  | endMarker
deriving DecidableEq, Repr

/-- The `stream_generator` inner coroutine of `SmartAIRouter.forward_request`
(buffered-generator transport): the ordered sequence of yielded items and the
provider state after the generator finishes.  `connTime` is the measured
connection time used for the `(old + connTime) / 2` smoothing at entry of the
response context (which runs for any response, also non-200, but not when the
connection itself fails).  Empty chunks are skipped (`if raw_chunk:`).  On a
clean completion nothing further is yielded and `error_count` is decremented,
floored at zero; on a mid-stream exception one terminal error envelope is
yielded after the already-relayed content and `error_count` is incremented. -/
def stream_generator (p : AIProvider) (u : StreamUpstream) (connTime : ℚ) :
    List StreamEvent × AIProvider :=
  match u with
  | .connectFail msg =>
      ([.error { type := "connection_error",
                 message := "Failed to connect to " ++ p.name ++ ": " ++ msg,
                 provider := p.name }],
       { p with error_count := p.error_count + 1 })
  | .httpError code text =>
      let p1 := { p with response_time := (p.response_time + connTime) / 2 }
      ([.error { type := "provider_error", message := text,
                 provider := p.name, code := some code }],
       p1)
  | .stream chunks ending =>
      let p1 := { p with response_time := (p.response_time + connTime) / 2 }
      let relayed := (chunks.filter (fun c => c ≠ "")).map StreamEvent.content
      match ending with
      | .clean =>
          (relayed, { p1 with error_count := max 0 (p1.error_count - 1) })
      | .failed k msg =>
          let env : ErrorEnvelope :=
            match k with
            | .connectErr =>
                { type := "connection_error",
                  message := "Failed to connect to " ++ p.name ++ ": " ++ msg,
                  provider := p.name }
            | .timeoutErr =>
                { type := "timeout_error",
                  message := "Request to " ++ p.name ++ " timed out: " ++ msg,
                  provider := p.name }
            | .otherErr =>
                { type := "stream_error",
                  message := "Stream error from " ++ p.name ++ ": " ++ msg,
                  provider := p.name }
          (relayed ++ [.error env], { p1 with error_count := p1.error_count + 1 })

/-- Body payload of one ASGI `http.response.body` message. -/
inductive ASGIBody where
  | chunk (s : String)
  | errorEnv (e : ErrorEnvelope)
  | empty
deriving DecidableEq, Repr

/-- One ASGI message sent to the caller by the direct-relay transport. -/
inductive ASGIEvent where
  | start (status : Int)
  | body (content : ASGIBody) (more_body : Bool)
deriving DecidableEq, Repr

/-- Result of `LowLevelASGIStreamer.stream_response`: the ordered ASGI
messages, the provider state afterwards, and the streamer's own
`self.error_count` (the failure handlers increment only this private counter,
never `provider.error_count`). -/
structure ASGIResult where
  events : List ASGIEvent
  provider : AIProvider
  streamerErrors : Int
deriving DecidableEq, Repr

/-- Method `LowLevelASGIStreamer.stream_response` (direct-relay transport).  Headers
(status 200) are sent before contacting the upstream, so error envelopes ride
on the already-started response.  The transport never updates
`provider.response_time`; on clean completion it sends an explicit empty
`more_body = False` end event and decrements `provider.error_count` floored
at zero; on any failure it sends one terminal error envelope and increments
only its own counter. -/
def stream_response (p : AIProvider) (u : StreamUpstream) : ASGIResult :=
  match u with
  | .connectFail msg =>
      { events := [.start 200,
                   .body (.errorEnv { type := "connection_error",
                                      message := "Connection failed: " ++ msg,
                                      provider := p.name }) false],
        provider := p,
        streamerErrors := 1 }
  | .httpError code text =>
      { events := [.start 200,
                   .body (.errorEnv { type := "upstream_error", message := text,
                                      provider := p.name, code := some code }) false],
        provider := p,
        streamerErrors := 0 }
  | .stream chunks ending =>
      let relayed := (chunks.filter (fun c => c ≠ "")).map
        (fun c => ASGIEvent.body (.chunk c) true)
      match ending with
      | .clean =>
          { events := .start 200 :: relayed ++ [.body .empty false],
            provider := { p with error_count := max 0 (p.error_count - 1) },
            streamerErrors := 0 }
      | .failed k msg =>
          let env : ErrorEnvelope :=
            match k with
            | .connectErr =>
                { type := "connection_error", message := "Connection failed: " ++ msg,
                  provider := p.name }
            | .timeoutErr =>
                { type := "timeout_error", message := "Request timeout: " ++ msg,
                  provider := p.name }
            | .otherErr =>
                { type := "stream_error", message := "Stream error: " ++ msg,
                  provider := p.name }
          { events := .start 200 :: relayed ++ [.body (.errorEnv env) false],
            provider := p,
            streamerErrors := 1 }

/-! ### Request-handler statistics trace -/

/-- Atomic observable actions of the `chat_completions` /
`chat_completions_asgi` handlers, in program order: router statistics
updates, user accounting, and upstream interaction during the relay. -/
inductive Action where
  | incTotal
  | updateUserStats
  | incProviderUsage (name : String)
  | incSuccess
  | incFailed
  | upstreamRead (chunk : String)
  | upstreamError
deriving DecidableEq, Repr

/-- Upstream interactions performed by either streaming transport while
relaying, in order. -/
def relayTrace : StreamUpstream → List Action
  | .httpError _ _ => [.upstreamError]
  | .connectFail _ => [.upstreamError]
  | .stream chunks ending =>
      (chunks.filter (fun c => c ≠ "")).map Action.upstreamRead ++
        (match ending with
         | .clean => []
         | .failed _ _ => [.upstreamError])

/-- Execution-order trace of an admitted streaming request through
`chat_completions` (either transport, `useAsgi` selecting which) or
`chat_completions_asgi`, for a request whose provider selection succeeded:
`total_requests` increment, user accounting, provider-usage increment, then
`successful_requests` increment — all before the response object is returned;
the relay (and hence every upstream read or failure) runs only afterwards,
when the returned generator / ASGI response is driven.  Relay failures yield
in-band error events and never touch the statistics counters. -/
def chat_completions_stream_trace (useAsgi : Bool) (providerName : String)
    (u : StreamUpstream) : List Action :=
  let _ := useAsgi
  [.incTotal, .updateUserStats, .incProviderUsage providerName, .incSuccess] ++ relayTrace u

/-- Whether an action is an upstream interaction (a byte read or an upstream
failure observation). -/
def Action.isUpstream : Action → Bool
  | .upstreamRead _ => true
  | .upstreamError => true
  | _ => false

/-- Whether an action mutates router statistics or user accounting. -/
def Action.isStatsUpdate : Action → Bool
  | .incTotal => true
  | .updateUserStats => true
  | .incProviderUsage _ => true
  | .incSuccess => true
  | .incFailed => true
  | _ => false

/-! ### Event counters used to state the streaming claims -/

/-- Number of upstream content chunks yielded by the generator transport. -/
def genContentCount (evs : List StreamEvent) : Nat :=
  (evs.filter fun e => match e with | .content _ => true | _ => false).length

/-- Number of error-envelope events yielded by the generator transport. -/
def genErrorCount (evs : List StreamEvent) : Nat :=
  (evs.filter fun e => match e with | .error _ => true | _ => false).length

/-- Number of upstream content chunks relayed by the direct-relay transport. -/
def asgiContentCount (evs : List ASGIEvent) : Nat :=
  (evs.filter fun e => match e with | .body (.chunk _) _ => true | _ => false).length

/-- Number of error-envelope body events sent by the direct-relay transport. -/
def asgiErrorCount (evs : List ASGIEvent) : Nat :=
  (evs.filter fun e => match e with | .body (.errorEnv _) _ => true | _ => false).length

/-! ### Spec-side definitions for the weighted-pool refinement claim

The following definitions follow the words of the claim (spec §4.3 steps 3-4)
rather than the source, and exist only to be compared with `effectiveWeight` /
`poolCopies` above. -/

/-- Python `round`: nearest integer, ties to even (banker's rounding), as the
claim's `round(effective_weight)` would compute. -/
def specRound (q : ℚ) : Int :=
  let n := ⌊q⌋
  let r := q - (n : ℚ)
  if r < 1/2 then n
  else if (1/2 : ℚ) < r then n + 1
  else if n % 2 = 0 then n else n + 1

/-- Effective weight as the claim words it: static weight times
`max(0.1, 2.0 - response_time)` times `max(0.1, 1.0 - 0.1 * error_count)`,
with the latency factor applied unconditionally. -/
def specEffectiveWeight (p : AIProvider) : ℚ :=
  (p.weight : ℚ) * max (1/10) (2 - p.response_time)
    * max (1/10) (1 - (p.error_count : ℚ) * (1/10))

/-- Pool copies as the claim words them: `max(1, round(effective_weight))`. -/
def specPoolCopies (p : AIProvider) : Nat :=
  (max 1 (specRound (specEffectiveWeight p))).toNat

/-- A concrete configured provider (the `deepseek` entry of the registry,
with `weight := 1`, a measured response time of 0.25 s — exactly
representable in binary floating point — and a clean error history), used to
separate the claimed pool construction from the implemented one. -/
def cexProviderC1 : AIProvider :=
  { name := "deepseek",
    base_url := "http://openai-forward-proxy:8000/deepseek/v1",
    api_key := "sk-878a5319c7b14bc48109e19315361b7f",
    models := ["deepseek-chat", "deepseek-coder"],
    weight := 1,
    status := .healthy,
    last_check := 0,
    response_time := 1/4,
    error_count := 0 }

/-! ## Theorems -/

/-- C6: for every health probe, an HTTP 200 probe response makes the provider
healthy with a zeroed error counter and a response-time estimate overwritten
(not averaged) with the elapsed probe time; any probe failure (non-200 status
or a raised exception — connection error, timeout, or other) makes it
unhealthy, increments the error counter by one, and still records the
last-check timestamp. -/
theorem health_check_provider_spec (p : AIProvider) (o : ProbeOutcome) (elapsed now : ℚ) :
    (o = .response 200 →
       health_check_provider p o elapsed now
         = ({ p with status := .healthy, error_count := 0, response_time := elapsed, last_check := now }, true))
  ∧ (∀ code, code ≠ 200 → o = .response code →
       health_check_provider p o elapsed now
         = ({ p with status := .unhealthy, error_count := p.error_count + 1, response_time := elapsed, last_check := now }, false))
  ∧ (∀ msg, o = .exc msg →
       health_check_provider p o elapsed now
         = ({ p with status := .unhealthy, error_count := p.error_count + 1, last_check := now }, false)) := by
  refine ⟨fun h => ?_, fun code hc h => ?_, fun msg h => ?_⟩ <;> subst h
  · rfl
  · simp [health_check_provider, hc]
  · rfl

/-- Witness for `health_check_provider_spec` at a concrete probe. -/
theorem health_check_provider_spec_witness :
    health_check_provider
      { name := "ollama", base_url := "http://openai-forward-proxy:8000/ollama/v1",
        api_key := "ollama-local-key", models := ["llama3.2"], weight := 2,
        status := .unknown, last_check := 0, response_time := 0, error_count := 3 }
      (.response 200) (3/2) 7
      = ({ name := "ollama", base_url := "http://openai-forward-proxy:8000/ollama/v1",
           api_key := "ollama-local-key", models := ["llama3.2"], weight := 2,
           status := .healthy, last_check := 7, response_time := 3/2, error_count := 0 }, true) :=
  (health_check_provider_spec
    { name := "ollama", base_url := "http://openai-forward-proxy:8000/ollama/v1",
      api_key := "ollama-local-key", models := ["llama3.2"], weight := 2,
      status := .unknown, last_check := 0, response_time := 0, error_count := 3 }
    (.response 200) (3/2) 7).1 rfl

/-- C8: for every `(requested_model, provider)` pair with a nonempty model
list, a recognized generic alias maps to the provider's configured
translation, falling back to the provider's first model when the alias table
has no entry for this provider; an unrecognized name that is one of the
provider's native models passes through unchanged; any other name falls back
to the provider's first model.  The duplicated
`LowLevelASGIStreamer.map_model_name` computes the identical pure function,
so two calls with identical arguments return identical output. -/
theorem map_model_name_spec (m : String) (p : AIProvider) (h : p.models ≠ []) :
    (∀ tbl, model_mapping.lookup m = some tbl →
       ((∀ t, tbl.lookup p.name = some t → map_model_name m p = some t)
        ∧ (tbl.lookup p.name = none → map_model_name m p = p.models.head?)))
  ∧ (model_mapping.lookup m = none → m ∈ p.models → map_model_name m p = some m)
  ∧ (model_mapping.lookup m = none → m ∉ p.models → map_model_name m p = p.models.head?)
  ∧ map_model_name_asgi m p = map_model_name m p := by
  obtain ⟨a, l, hml⟩ := List.exists_cons_of_ne_nil h
  refine ⟨fun tbl htbl => ⟨fun t ht => ?_, fun ht => ?_⟩, fun hm hmem => ?_,
          fun hm hmem => ?_, rfl⟩
  · simp [map_model_name, htbl, ht, hml]
  · simp [map_model_name, htbl, ht, hml]
  · simp [map_model_name, hm, hmem]
  · simp [map_model_name, hm, hmem]

/-- Witness for `map_model_name_spec`: the alias `code-assistant` on the
`deepseek` provider maps to `deepseek-coder`. -/
theorem map_model_name_spec_witness :
    (["deepseek-chat", "deepseek-coder"] : List String) ≠ []
  ∧ map_model_name "code-assistant"
      { name := "deepseek", base_url := "http://openai-forward-proxy:8000/deepseek/v1",
        api_key := "sk-878a5319c7b14bc48109e19315361b7f",
        models := ["deepseek-chat", "deepseek-coder"] }
      = some "deepseek-coder" := by
  refine ⟨by simp, ?_⟩
  exact ((map_model_name_spec "code-assistant"
    { name := "deepseek", base_url := "http://openai-forward-proxy:8000/deepseek/v1",
      api_key := "sk-878a5319c7b14bc48109e19315361b7f",
      models := ["deepseek-chat", "deepseek-coder"] }
    (by simp)).1 _ rfl).1 "deepseek-coder" rfl

/-- C9 counterexample: a user at exactly their daily limit whose last request
was on an earlier calendar day is ADMITTED, not rejected — the lazy rollover
reset runs before the limit comparison, so the claim's first half fails as
universally stated. -/
theorem check_quota_rollover_cex :
    (authenticate
      (some { user_id := "demo_user_001", api_key := "sk-user-demo-key-001",
              daily_limit := 5, requests_today := 5, total_requests := 9,
              created_at := "2024-01-01T08:00:00",
              last_request := "2024-01-01T12:00:00" })
      "2024-01-02").2 = .ok := by decide

/-- C9 (amended): a user whose `requests_today` equals `daily_limit` is
rejected by the quota check when the date portion of their last request
equals the current date; whenever that date portion differs from the current
date, `requests_today` is lazily reset to 0 during the quota check, and the
check then admits exactly when the daily limit is positive (so the first
request after a calendar-day rollover is admitted for any positive limit,
even by a user who had exhausted yesterday's quota). -/
theorem check_quota_spec (u : UserInfo) (today : String) :
    (u.last_request.take 10 = today → u.requests_today = u.daily_limit →
       (check_quota u today).2 = false)
  ∧ (u.last_request.take 10 ≠ today →
       (check_quota u today).1.requests_today = 0
       ∧ ((check_quota u today).2 = true ↔ 0 < u.daily_limit)) := by
  constructor
  · intro h1 h2
    simp [check_quota, h1, h2]
  · intro h1
    refine ⟨by simp [check_quota, h1], by simp [check_quota, h1]⟩

/-- Witness for `check_quota_spec`: a same-day user at their limit is
rejected. -/
theorem check_quota_spec_witness :
    ("2024-01-02T09:00:00".take 10 = "2024-01-02")
  ∧ (check_quota
      { user_id := "demo_user_001", api_key := "sk-user-demo-key-001",
        daily_limit := 5, requests_today := 5, total_requests := 9,
        created_at := "2024-01-01T08:00:00",
        last_request := "2024-01-02T09:00:00" }
      "2024-01-02").2 = false := by
  refine ⟨by decide, ?_⟩
  exact (check_quota_spec
    { user_id := "demo_user_001", api_key := "sk-user-demo-key-001",
      daily_limit := 5, requests_today := 5, total_requests := 9,
      created_at := "2024-01-01T08:00:00",
      last_request := "2024-01-02T09:00:00" }
    "2024-01-02").1 (by decide) rfl

/-- C2: on either streaming transport, an upstream non-200 status yields zero
upstream content bytes and exactly one terminal event carrying a structured
error envelope with type, message, provider name, and the upstream status
code; an upstream connection failure before any bytes likewise yields zero
content bytes and exactly one terminal error event.  (The direct-relay
transport's response-start message carries headers, not content.) -/
theorem stream_error_isolation (p : AIProvider) (code : Int) (text msg : String) (ct : ℚ) :
    ((stream_generator p (.httpError code text) ct).1
        = [.error { type := "provider_error", message := text, provider := p.name, code := some code }]
      ∧ genContentCount (stream_generator p (.httpError code text) ct).1 = 0
      ∧ genErrorCount (stream_generator p (.httpError code text) ct).1 = 1)
  ∧ ((stream_response p (.httpError code text)).events
        = [.start 200,
           .body (.errorEnv { type := "upstream_error", message := text, provider := p.name, code := some code }) false]
      ∧ asgiContentCount (stream_response p (.httpError code text)).events = 0
      ∧ asgiErrorCount (stream_response p (.httpError code text)).events = 1)
  ∧ ((stream_generator p (.connectFail msg) ct).1
        = [.error { type := "connection_error",
                    message := "Failed to connect to " ++ p.name ++ ": " ++ msg,
                    provider := p.name }]
      ∧ genContentCount (stream_generator p (.connectFail msg) ct).1 = 0
      ∧ genErrorCount (stream_generator p (.connectFail msg) ct).1 = 1)
  ∧ ((stream_response p (.connectFail msg)).events
        = [.start 200,
           .body (.errorEnv { type := "connection_error",
                              message := "Connection failed: " ++ msg,
                              provider := p.name }) false]
      ∧ asgiContentCount (stream_response p (.connectFail msg)).events = 0
      ∧ asgiErrorCount (stream_response p (.connectFail msg)).events = 1) :=
  ⟨⟨rfl, rfl, rfl⟩, ⟨rfl, rfl, rfl⟩, ⟨rfl, rfl, rfl⟩, ⟨rfl, rfl, rfl⟩⟩

/-- C3 counterexample: on a cleanly completing upstream stream the
buffered-generator transport yields exactly the relayed content and nothing
else — in particular no explicit end-of-stream terminal marker — while the
direct-relay transport does send an explicit empty `more_body = False` end
event.  The claim that BOTH transports emit an explicit end marker is
therefore false. -/
theorem stream_clean_generator_cex :
    (stream_generator cexProviderC1 (.stream ["data: hello\n\n"] .clean) 0).1
        = [.content "data: hello\n\n"]
  ∧ StreamEvent.endMarker ∉ (stream_generator cexProviderC1 (.stream ["data: hello\n\n"] .clean) 0).1
  ∧ (stream_response cexProviderC1 (.stream ["data: hello\n\n"] .clean)).events
        = [.start 200, .body (.chunk "data: hello\n\n") true, .body .empty false] := by
  refine ⟨rfl, ?_, rfl⟩
  decide

/-- C3 (amended): on clean completion of a streaming call both transports
decrement the provider's consecutive-error counter by one, floored at zero;
the direct-relay transport additionally emits an explicit end-of-stream
terminal marker (an empty body event with `more_body = False`), while the
buffered-generator transport emits only the relayed content and terminates
without an explicit marker (its stream simply ends). -/
theorem stream_clean_completion_spec (p : AIProvider) (chunks : List String) (ct : ℚ) :
    (stream_generator p (.stream chunks .clean) ct).1
        = (chunks.filter (fun c => c ≠ "")).map StreamEvent.content
  ∧ StreamEvent.endMarker ∉ (stream_generator p (.stream chunks .clean) ct).1
  ∧ (stream_generator p (.stream chunks .clean) ct).2.error_count = max 0 (p.error_count - 1)
  ∧ (stream_response p (.stream chunks .clean)).events
        = .start 200 :: (chunks.filter (fun c => c ≠ "")).map (fun c => ASGIEvent.body (.chunk c) true)
            ++ [.body .empty false]
  ∧ (stream_response p (.stream chunks .clean)).provider.error_count = max 0 (p.error_count - 1) := by
  refine ⟨rfl, ?_, rfl, rfl, rfl⟩
  simp [stream_generator]

/-- C4 counterexample: a non-streaming timeout increments the provider's
consecutive-error counter TWICE (once in the inner timeout handler, once more
in the outer catch-all that re-catches the raised `HTTPException`), not
exactly once; and both a timeout and a connection error surface to the caller
with the same status code 502 (the inner 504 survives only inside the detail
text), so timeout is not distinguished from connection error in the surfaced
status, and the detail carries no provider name. -/
theorem forward_failure_cex :
    (forward_non_streaming cexProviderC1 (.timeoutError "read timed out") 0 "t").1.error_count = 2
  ∧ (forward_non_streaming cexProviderC1 (.timeoutError "read timed out") 0 "t").2
      = .error ⟨502, "Provider error: 504: Provider timeout: read timed out"⟩
  ∧ (forward_non_streaming cexProviderC1 (.connectError "connection refused") 0 "t").2
      = .error ⟨502, "Provider error: 502: Connection error: connection refused"⟩ :=
  ⟨rfl, rfl, rfl⟩

/-- C4 (amended): for every non-streaming forwarded call ending in an
upstream non-200 response, a connection failure, or a timeout, the provider's
consecutive-error counter is incremented exactly twice (the inner handler's
`HTTPException` is re-caught by the outer `except Exception`, which
increments again), and the condition is surfaced as an `HTTPException` with
status 502 in all three cases, whose detail message embeds the inner
condition (timeout, connection error, and upstream non-200 remain
distinguishable only by the message text, which carries the upstream
status/message but not the provider name). -/
theorem forward_failure_spec (p : AIProvider) (code : Int) (text cmsg tmsg : String)
    (rt : ℚ) (ts : String) :
    ((forward_non_streaming p (.httpError code text) rt ts).1.error_count = p.error_count + 2
      ∧ (forward_non_streaming p (.httpError code text) rt ts).2
          = .error ⟨502, "Provider error: " ++ (toString code ++ (": Provider error: " ++ text))⟩)
  ∧ ((forward_non_streaming p (.connectError cmsg) rt ts).1.error_count = p.error_count + 2
      ∧ (forward_non_streaming p (.connectError cmsg) rt ts).2
          = .error ⟨502, "Provider error: 502: Connection error: " ++ cmsg⟩)
  ∧ ((forward_non_streaming p (.timeoutError tmsg) rt ts).1.error_count = p.error_count + 2
      ∧ (forward_non_streaming p (.timeoutError tmsg) rt ts).2
          = .error ⟨502, "Provider error: 504: Provider timeout: " ++ tmsg⟩) := by
  refine ⟨⟨?_, ?_⟩, ⟨?_, rfl⟩, ⟨?_, rfl⟩⟩
  · show p.error_count + 1 + 1 = p.error_count + 2
    omega
  · simp only [forward_non_streaming, httpExcStr]
    rw [String.append_assoc (toString code) ": " ("Provider error: " ++ text)]
    rfl
  · show p.error_count + 1 + 1 = p.error_count + 2
    omega
  · show p.error_count + 1 + 1 = p.error_count + 2
    omega

/-- Reading the assigned key back from the update-in-place branch of a Python
dict assignment. -/
theorem dictGet_mapSet_self (d : JBody) (k : String) (v : JVal)
    (h : (d.any fun kv => kv.1 = k) = true) :
    dictGet (d.map (fun kv => if kv.1 = k then (k, v) else kv)) k = some v := by
  induction d with
  | nil => simp at h
  | cons hd tl ih =>
    by_cases hhd : hd.1 = k
    · simp [dictGet, hhd]
    · have htl : (tl.any fun kv => kv.1 = k) = true := by
        simpa [List.any_cons, hhd] using h
      simpa [dictGet, List.find?_cons, hhd] using ih htl

/-- Reading the assigned key back from the append branch of a Python dict
assignment. -/
theorem dictGet_appendSet_self (d : JBody) (k : String) (v : JVal)
    (h : ¬ (d.any fun kv => kv.1 = k) = true) :
    dictGet (d ++ [(k, v)]) k = some v := by
  induction d with
  | nil => simp [dictGet]
  | cons hd tl ih =>
    have hhd : ¬ hd.1 = k := by
      intro e
      simp [List.any_cons, e] at h
    have htl : ¬ (tl.any fun kv => kv.1 = k) = true := by
      simpa [List.any_cons, hhd] using h
    simpa [dictGet, List.find?_cons, hhd] using ih htl

/-- The update-in-place branch of a Python dict assignment leaves every other
key's value unchanged. -/
theorem dictGet_mapSet_ne (d : JBody) (k k' : String) (v : JVal) (h : k' ≠ k) :
    dictGet (d.map (fun kv => if kv.1 = k then (k, v) else kv)) k' = dictGet d k' := by
  induction d with
  | nil => simp [dictGet]
  | cons hd tl ih =>
    by_cases hhd : hd.1 = k
    · have e1 : (decide ((k, v).1 = k')) = false := by
        simp only [decide_eq_false_iff_not]
        exact fun e => h e.symm
      have e2 : (decide (hd.1 = k')) = false := by
        simp only [decide_eq_false_iff_not, hhd]
        exact fun e => h e.symm
      simpa [dictGet, List.find?_cons, if_pos hhd, e1, e2] using ih
    · by_cases hk' : hd.1 = k'
      · have e1 : (decide (hd.1 = k')) = true := by
          simpa using hk'
        simp [dictGet, List.find?_cons, if_neg hhd, e1]
      · have e1 : (decide (hd.1 = k')) = false := by
          simpa using hk'
        simpa [dictGet, List.find?_cons, if_neg hhd, e1] using ih

/-- The append branch of a Python dict assignment leaves every other key's
value unchanged. -/
theorem dictGet_appendSet_ne (d : JBody) (k k' : String) (v : JVal) (h : k' ≠ k) :
    dictGet (d ++ [(k, v)]) k' = dictGet d k' := by
  induction d with
  | nil => simp [dictGet, h.symm]
  | cons hd tl ih =>
    by_cases hk' : hd.1 = k'
    · simp [dictGet, List.find?_cons, hk']
    · simpa [dictGet, List.find?_cons, hk'] using ih

/-- Reading back the key just assigned by a Python dict assignment. -/
theorem dictGet_dictSet_self (d : JBody) (k : String) (v : JVal) :
    dictGet (dictSet d k v) k = some v := by
  by_cases hany : (d.any fun kv => kv.1 = k) = true
  · rw [dictSet, if_pos hany]
    exact dictGet_mapSet_self d k v hany
  · rw [dictSet, if_neg hany]
    exact dictGet_appendSet_self d k v hany

/-- A Python dict assignment leaves every other key's value unchanged. -/
theorem dictGet_dictSet_ne (d : JBody) (k k' : String) (v : JVal) (h : k' ≠ k) :
    dictGet (dictSet d k v) k' = dictGet d k' := by
  by_cases hany : (d.any fun kv => kv.1 = k) = true
  · rw [dictSet, if_pos hany]
    exact dictGet_mapSet_ne d k k' v h
  · rw [dictSet, if_neg hany]
    exact dictGet_appendSet_ne d k k' v h

/-- C7 counterexample: when the upstream 200 body itself contains a
`_router_info` field, the router's metadata attachment OVERWRITES it, so the
returned value does mutate a field the upstream already set. -/
theorem forward_success_cex :
    (forward_non_streaming cexProviderC1
        (.ok [("_router_info", JVal.str "upstream-set")]) 0 "t0").2
      = .ok [("_router_info", routerInfoBlock "deepseek" 0 "t0")]
  ∧ routerInfoBlock "deepseek" 0 "t0" ≠ JVal.str "upstream-set" := by
  refine ⟨rfl, ?_⟩
  intro h
  exact JVal.noConfusion h

/-- C7 (amended): every non-streaming forwarded call whose upstream returns
HTTP 200 returns the decoded upstream body with a `_router_info` block
(provider name, measured latency, wall-clock timestamp, `streaming = false`)
attached, leaving every key other than `_router_info` itself unchanged (an
upstream-supplied `_router_info` is overwritten); the provider's smoothed
response time becomes `(old + new) / 2` and its consecutive-error counter is
decremented by one, never going below zero. -/
theorem forward_success_spec (p : AIProvider) (body : JBody) (rt : ℚ) (ts : String) :
    (forward_non_streaming p (.ok body) rt ts).2
        = .ok (dictSet body "_router_info" (routerInfoBlock p.name rt ts))
  ∧ dictGet (dictSet body "_router_info" (routerInfoBlock p.name rt ts)) "_router_info"
        = some (routerInfoBlock p.name rt ts)
  ∧ (∀ k, k ≠ "_router_info" →
        dictGet (dictSet body "_router_info" (routerInfoBlock p.name rt ts)) k = dictGet body k)
  ∧ (forward_non_streaming p (.ok body) rt ts).1.response_time = (p.response_time + rt) / 2
  ∧ (forward_non_streaming p (.ok body) rt ts).1.error_count = max 0 (p.error_count - 1) :=
  ⟨rfl,
   dictGet_dictSet_self body "_router_info" (routerInfoBlock p.name rt ts),
   fun k hk => dictGet_dictSet_ne body "_router_info" k (routerInfoBlock p.name rt ts) hk,
   rfl, rfl⟩

/-- Witness for `forward_success_spec`: a body field other than
`_router_info` survives the metadata attachment unchanged. -/
theorem forward_success_spec_witness :
    ("id" : String) ≠ "_router_info"
  ∧ dictGet (dictSet [("id", JVal.str "chatcmpl-1")] "_router_info"
        (routerInfoBlock "deepseek" (1/2) "2024-12-19T10:00:00")) "id"
      = dictGet [("id", JVal.str "chatcmpl-1")] "id" := by
  refine ⟨by decide, ?_⟩
  exact (forward_success_spec cexProviderC1 [("id", JVal.str "chatcmpl-1")]
    (1/2) "2024-12-19T10:00:00").2.2.1 "id" (by decide)

/-- Every candidate contributes at least one pool entry. -/
theorem poolCopies_pos (p : AIProvider) : 0 < poolCopies p := by
  have h1 : (1 : Int) ≤ max 1 (pyInt (effectiveWeight p)) := le_max_left _ _
  have h2 := Int.toNat_le_toNat h1
  simp only [poolCopies]
  omega

/-- The selection pool contains exactly the candidates. -/
theorem mem_weightedPool {q : AIProvider} {l : List AIProvider} :
    q ∈ weightedPool l ↔ q ∈ l := by
  simp only [weightedPool, List.mem_flatMap, List.mem_replicate]
  constructor
  · rintro ⟨a, ha, -, rfl⟩
    exact ha
  · intro hq
    exact ⟨q, hq, (poolCopies_pos q).ne', rfl⟩

/-- Multiplicity of a candidate in the selection pool. -/
theorem count_weightedPool (l : List AIProvider) (h : l.Nodup) (p : AIProvider) (hp : p ∈ l) :
    (weightedPool l).count p = poolCopies p := by
  induction l with
  | nil => cases hp
  | cons c cs ih =>
    have hcons : weightedPool (c :: cs)
        = List.replicate (poolCopies c) c ++ weightedPool cs := by
      simp [weightedPool]
    rw [hcons, List.count_append]
    rcases List.mem_cons.mp hp with heq | hmem
    · subst heq
      have hnotin : p ∉ cs := (List.nodup_cons.mp h).1
      have hz : (weightedPool cs).count p = 0 :=
        List.count_eq_zero.mpr (fun hq => hnotin (mem_weightedPool.mp hq))
      rw [List.count_replicate_self, hz]
      omega
    · have hne : ¬ (c = p) := fun e => (List.nodup_cons.mp h).1 (e ▸ hmem)
      have hb : (c == p) = false := by
        simpa using hne
      rw [List.count_replicate, hb]
      simpa using ih (List.nodup_cons.mp h).2 hmem

/-- The effective weight written as a single product, exposing that the
latency factor is applied only under the `response_time > 0` guard. -/
theorem effectiveWeight_eq (p : AIProvider) :
    effectiveWeight p
      = (p.weight : ℚ)
        * (if 0 < p.response_time then max (1/10) (2 - p.response_time) else 1)
        * max (1/10) (1 - (p.error_count : ℚ) * (1/10)) := by
  unfold effectiveWeight
  by_cases h : 0 < p.response_time
  · simp [h]
  · simp [h]

/-- C1 counterexample: for the configured `deepseek` provider with
`weight = 1`, `response_time = 0.25 s`, `error_count = 0`, the claim's pool
multiplicity `max(1, round(1 × max(0.1, 2 − 0.25) × 1)) = round(1.75) = 2`,
but the implementation truncates (`int(1.75) = 1`), so the pool contains one
copy, not two. -/
theorem effective_weight_pool_cex :
    specPoolCopies cexProviderC1 = 2
  ∧ (weightedPool [cexProviderC1]).count cexProviderC1 = 1 := by
  have hmax1 : max ((1:ℚ)/10) (2 - 1/4) = 7/4 := by
    rw [show ((2:ℚ) - 1/4) = 7/4 by norm_num]
    exact max_eq_right (by norm_num)
  have hmax2 : max ((1:ℚ)/10) (1 - ((0:Int):ℚ) * (1/10)) = 1 := by
    rw [show ((1:ℚ) - ((0:Int):ℚ) * (1/10)) = 1 by norm_num]
    exact max_eq_right (by norm_num)
  have hfloor : ⌊(7/4 : ℚ)⌋ = 1 := by
    rw [Int.floor_eq_iff]
    norm_num
  constructor
  · have hsew : specEffectiveWeight cexProviderC1 = 7/4 := by
      simp only [specEffectiveWeight, cexProviderC1]
      rw [hmax1, hmax2]
      norm_num
    have hround : specRound ((7:ℚ)/4) = 2 := by
      simp only [specRound, hfloor]
      norm_num
    rw [specPoolCopies, hsew, hround]
    rw [max_eq_right (by norm_num : (1:Int) ≤ 2)]
    rfl
  · have hew : effectiveWeight cexProviderC1 = 7/4 := by
      rw [effectiveWeight_eq]
      simp only [cexProviderC1]
      rw [if_pos (by norm_num : (0:ℚ) < 1/4), hmax1, hmax2]
      norm_num
    have hpy : pyInt ((7:ℚ)/4) = 1 := by
      rw [pyInt, if_pos (by norm_num : (0:ℚ) ≤ 7/4), hfloor]
    have hpc : poolCopies cexProviderC1 = 1 := by
      rw [poolCopies, hew, hpy]
      rw [max_self]
      rfl
    rw [count_weightedPool [cexProviderC1] (List.nodup_singleton _) cexProviderC1
          (List.mem_singleton_self _), hpc]

/-- C1 (amended): for every duplicate-free candidate list reaching step 3 of
selection, each candidate's multiplicity in the selection pool is
`max(1, int(effective_weight))` — truncation toward zero, not rounding —
where the effective weight is the static weight times the latency factor
`max(0.1, 2.0 − response_time)` applied only when `response_time > 0`, times
the error factor `max(0.1, 1.0 − 0.1 × error_count)`; the provider is then
drawn from the pool by an arbitrary (uniformly random) index. -/
theorem effective_weight_pool_spec (cands : List AIProvider) (h : cands.Nodup)
    (p : AIProvider) (hp : p ∈ cands) :
    (weightedPool cands).count p
      = (max 1 (pyInt ((p.weight : ℚ)
          * (if 0 < p.response_time then max (1/10) (2 - p.response_time) else 1)
          * max (1/10) (1 - (p.error_count : ℚ) * (1/10))))).toNat := by
  rw [count_weightedPool cands h p hp, poolCopies, effectiveWeight_eq]

/-- Witness for `effective_weight_pool_spec` on a singleton candidate list. -/
theorem effective_weight_pool_spec_witness :
    ([cexProviderC1] : List AIProvider).Nodup
  ∧ cexProviderC1 ∈ [cexProviderC1]
  ∧ (weightedPool [cexProviderC1]).count cexProviderC1
      = (max 1 (pyInt ((cexProviderC1.weight : ℚ)
          * (if 0 < cexProviderC1.response_time then max (1/10) (2 - cexProviderC1.response_time) else 1)
          * max (1/10) (1 - (cexProviderC1.error_count : ℚ) * (1/10))))).toNat :=
  ⟨List.nodup_singleton _, List.mem_singleton_self _,
   effective_weight_pool_spec [cexProviderC1] (List.nodup_singleton _) cexProviderC1
     (List.mem_singleton_self _)⟩

/-- The candidate set is nonempty and stays inside the healthy filter
whenever that filter is nonempty. -/
theorem candidates_spec (providers : List AIProvider) (request : ChatRequest)
    (h : healthyFilter providers ≠ []) :
    candidates providers request ≠ []
  ∧ ∀ q ∈ candidates providers request, q ∈ healthyFilter providers := by
  have h1 : (healthyFilter providers).isEmpty = false := List.isEmpty_eq_false.mpr h
  have hstep : candidatesStep1 providers = healthyFilter providers := by
    simp only [candidatesStep1, h1]
    simp
  by_cases hm : (modelCompatible request (healthyFilter providers)).isEmpty = true
  · have hc : candidates providers request = healthyFilter providers := by
      simp only [candidates]
      rw [hstep, if_pos hm]
    rw [hc]
    exact ⟨h, fun q hq => hq⟩
  · have hc : candidates providers request
        = modelCompatible request (healthyFilter providers) := by
      simp only [candidates]
      rw [hstep, if_neg hm]
    rw [hc]
    refine ⟨fun e => hm (by simp [e]), fun q hq => List.mem_of_mem_filter hq⟩

/-- C5: whenever at least one configured provider is healthy with fewer than
five consecutive errors, the selector succeeds and returns a provider from
that set, for every random draw; only an empty healthy set makes it fall
back to the full provider list. -/
theorem healthy_selection (providers : List AIProvider) (request : ChatRequest) (choice : Nat)
    (h : healthyFilter providers ≠ []) :
    ∃ p, select_provider providers request choice = some p
      ∧ p ∈ healthyFilter providers := by
  obtain ⟨hne, hsub⟩ := candidates_spec providers request h
  have hnotempty : (candidates providers request).isEmpty = false :=
    List.isEmpty_eq_false.mpr hne
  have hpoolne : weightedPool (candidates providers request) ≠ [] := by
    obtain ⟨c, ct, hct⟩ := List.exists_cons_of_ne_nil hne
    intro hnil
    have hc : c ∈ weightedPool (candidates providers request) :=
      mem_weightedPool.mpr (by rw [hct]; exact List.mem_cons_self c ct)
    rw [hnil] at hc
    cases hc
  have hlen : 0 < (weightedPool (candidates providers request)).length :=
    List.length_pos.mpr hpoolne
  have hmod : choice % (weightedPool (candidates providers request)).length
      < (weightedPool (candidates providers request)).length := Nat.mod_lt _ hlen
  have hget := List.get?_eq_get hmod
  refine ⟨(weightedPool (candidates providers request)).get ⟨_, hmod⟩, ?_, ?_⟩
  · simp only [select_provider, hnotempty]
    simp only [Bool.false_eq_true, if_false]
    exact hget
  · exact hsub _ (mem_weightedPool.mp (List.get_mem _ _ _))

/-- Witness for `healthy_selection`: one healthy configured provider is
always selected. -/
theorem healthy_selection_witness :
    healthyFilter [cexProviderC1] ≠ []
  ∧ ∃ p, select_provider [cexProviderC1] { model := "deepseek-chat" } 0 = some p
      ∧ p ∈ healthyFilter [cexProviderC1] :=
  ⟨by decide, healthy_selection [cexProviderC1] { model := "deepseek-chat" } 0 (by decide)⟩

/-- C10: for every admitted streaming request on either transport, the trace
splits into a prefix containing the `successful_requests` increment with no
upstream interaction, followed by the relay with no statistics update — so
the success counter is incremented before any upstream byte is read or
relayed, a later relay failure still counts as successful, and
`failed_requests` is never incremented by a relay failure. -/
theorem streaming_success_before_relay (useAsgi : Bool) (name : String) (u : StreamUpstream) :
    ∃ pre post,
      chat_completions_stream_trace useAsgi name u = pre ++ post
      ∧ Action.incSuccess ∈ pre
      ∧ (∀ a ∈ pre, a.isUpstream = false)
      ∧ (∀ a ∈ post, a.isStatsUpdate = false)
      ∧ Action.incFailed ∉ chat_completions_stream_trace useAsgi name u := by
  refine ⟨[.incTotal, .updateUserStats, .incProviderUsage name, .incSuccess], relayTrace u,
          rfl, by simp, ?_, ?_, ?_⟩
  · intro a ha
    simp only [List.mem_cons, List.mem_singleton] at ha
    rcases ha with rfl | rfl | rfl | rfl | ha
    · rfl
    · rfl
    · rfl
    · rfl
    · simp at ha
  · intro a ha
    cases u with
    | httpError code text =>
        simp only [relayTrace, List.mem_singleton] at ha
        subst ha
        rfl
    | connectFail msg =>
        simp only [relayTrace, List.mem_singleton] at ha
        subst ha
        rfl
    | stream chunks ending =>
        simp only [relayTrace, List.mem_append] at ha
        rcases ha with ha | ha
        · obtain ⟨c, -, rfl⟩ := List.mem_map.mp ha
          rfl
        · cases ending with
          | clean => simp at ha
          | failed k msg =>
              simp only [List.mem_singleton] at ha
              subst ha
              rfl
  · intro hmem
    simp only [chat_completions_stream_trace, List.mem_append, List.mem_cons,
               List.mem_singleton] at hmem
    rcases hmem with (hmem | hmem | hmem | hmem) | hmem
    · cases hmem
    · cases hmem
    · cases hmem
    · rcases hmem with hmem | hmem
      · cases hmem
      · simp at hmem
    · cases u with
      | httpError code text => simp [relayTrace] at hmem
      | connectFail msg => simp [relayTrace] at hmem
      | stream chunks ending =>
          simp only [relayTrace, List.mem_append] at hmem
          rcases hmem with hmem | hmem
          · obtain ⟨c, -, hc⟩ := List.mem_map.mp hmem
            cases hc
          · cases ending <;> simp at hmem

/-- Witness for `streaming_success_before_relay`: a direct-relay request
whose upstream connection fails still counts as successful. -/
theorem streaming_success_before_relay_witness :
    ∃ pre post,
      chat_completions_stream_trace true "deepseek" (.connectFail "connection refused")
        = pre ++ post
      ∧ Action.incSuccess ∈ pre
      ∧ (∀ a ∈ pre, a.isUpstream = false)
      ∧ (∀ a ∈ post, a.isStatsUpdate = false)
      ∧ Action.incFailed
          ∉ chat_completions_stream_trace true "deepseek" (.connectFail "connection refused") :=
  streaming_success_before_relay true "deepseek" (.connectFail "connection refused")

end AIRouter
